import Mathlib

/-!
Verification of the LoFi Remix API (`src/main.py`): a shallow embedding of
the preset-to-command builder `get_ffmpeg_command` and of the `/process`
request handler `process_audio`, together with theorems settling the
specification's claims about them.
-/

namespace LofiApi

/-! ## Command builder (`get_ffmpeg_command`, src/main.py lines 124-197)

The Python function returns a single shell command string assembled from
f-string literals.  We embed it as a pure function on strings, transcribing
each branch's concatenated literal exactly. -/

/-- Embedding of `get_ffmpeg_command(preset, input_path, output_path)`:
the chain of `if`/`elif` string comparisons from src/main.py. -/
def get_ffmpeg_command (preset input_path output_path : String) : String :=
  if preset = "lofi" ∨ preset = "tiktok_lofi" ∨ preset = "chill_lofi" then
    "ffmpeg -i \"" ++ input_path ++ "\" -filter_complex \"" ++
      "lowpass=f=3000,highpass=f=200,equalizer=f=60:width_type=h:width=100:g=10,vibrato=f=0.25:d=0.3,asetrate=44100*0.97,aresample=44100" ++
      "\" -c:a aac -b:a 320k \"" ++ output_path ++ "\""
  else if preset = "reverb" then
    "ffmpeg -i \"" ++ input_path ++ "\" -filter_complex \"" ++
      "atempo=0.85,asetrate=44100*0.95,aresample=44100,reverb=roomsize=0.8:wet=0.45:dry=0.55,equalizer=f=60:width_type=h:width=100:g=12" ++
      "\" -c:a aac -b:a 320k \"" ++ output_path ++ "\""
  else if preset = "nightcore" then
    "ffmpeg -i \"" ++ input_path ++ "\" -filter_complex \"" ++
      "atempo=1.25,asetrate=44100*1.1,aresample=44100,highpass=f=100,equalizer=f=8000:width_type=h:width=2000:g=8" ++
      "\" -c:a aac -b:a 320k \"" ++ output_path ++ "\""
  else if preset = "8d_audio" then
    "ffmpeg -i \"" ++ input_path ++ "\" -filter_complex \"" ++
      "apulsator=hz=0.35:width=0.5,stereotools=mlev=0.5:phase=0.25,extrastereo=m=2.0,reverb=roomsize=0.5:wet=0.3" ++
      "\" -c:a aac -b:a 320k \"" ++ output_path ++ "\""
  else if preset = "vaporwave" then
    "ffmpeg -i \"" ++ input_path ++ "\" -filter_complex \"" ++
      "atempo=0.90,asetrate=44100*0.93,aresample=44100,reverb=roomsize=0.6:wet=0.35,equalizer=f=60:width_type=h:width=100:g=10" ++
      "\" -c:a aac -b:a 320k \"" ++ output_path ++ "\""
  else
    "ffmpeg -i \"" ++ input_path ++ "\" -c:a aac -b:a 320k \"" ++ output_path ++ "\""

/-- The seven preset identifiers recognized by the builder's comparison chain. -/
def recognizedPresets : List String :=
  ["lofi", "tiktok_lofi", "chill_lofi", "reverb", "nightcore", "8d_audio", "vaporwave"]

/-- Filter-chain rows of the spec's section 4.2 table, one concrete filter stage
per table cell, in the table's order (the resample-pitch cell is the
`asetrate`/`aresample` pair, the table's single "pitch-via-resample" stage).
This is the spec-side description the builder is compared against. -/
def specTableStages (preset : String) : List String :=
  if preset = "lofi" ∨ preset = "tiktok_lofi" ∨ preset = "chill_lofi" then
    ["lowpass=f=3000", "highpass=f=200",
     "equalizer=f=60:width_type=h:width=100:g=10", "vibrato=f=0.25:d=0.3",
     "asetrate=44100*0.97,aresample=44100"]
  else if preset = "reverb" then
    ["atempo=0.85", "asetrate=44100*0.95,aresample=44100",
     "reverb=roomsize=0.8:wet=0.45:dry=0.55",
     "equalizer=f=60:width_type=h:width=100:g=12"]
  else if preset = "nightcore" then
    ["atempo=1.25", "asetrate=44100*1.1,aresample=44100", "highpass=f=100",
     "equalizer=f=8000:width_type=h:width=2000:g=8"]
  else if preset = "8d_audio" then
    ["apulsator=hz=0.35:width=0.5", "stereotools=mlev=0.5:phase=0.25",
     "extrastereo=m=2.0", "reverb=roomsize=0.5:wet=0.3"]
  else if preset = "vaporwave" then
    ["atempo=0.90", "asetrate=44100*0.93,aresample=44100",
     "reverb=roomsize=0.6:wet=0.35", "equalizer=f=60:width_type=h:width=100:g=10"]
  else []

/-- Shape of a builder result that carries a filter chain. -/
def filteredCmd (input_path chain output_path : String) : String :=
  "ffmpeg -i \"" ++ input_path ++ "\" -filter_complex \"" ++ chain ++
    "\" -c:a aac -b:a 320k \"" ++ output_path ++ "\""

/-- The pass-through/default re-encode command, with no filter chain. -/
def defaultCmd (input_path output_path : String) : String :=
  "ffmpeg -i \"" ++ input_path ++ "\" -c:a aac -b:a 320k \"" ++ output_path ++ "\""

/-! ## Request handler (`process_audio`, src/main.py lines 32-121)

The handler's interactions with the outside world — whether saving the
upload raises, how the child process run ends, whether the expected output
file exists afterwards, and whether deleting the input file raises — are
captured in an explicit environment record; the handler itself is embedded
as a total function from that environment to its response plus the
observable post-state (input file present? child process still running?). -/

/-- How the `subprocess.run(..., timeout=300)` call ends: the child exits
with a return code and captured standard error, or the 300-second timeout
elapses and `TimeoutExpired` is raised. -/
inductive RunOutcome where
  | completed (returncode : Int) (stderr : String)
  | timeout
deriving DecidableEq, Repr

/-- What a `subprocess.run` call leaves behind: its outcome plus whether the
child process is still running when the call returns. -/
structure RunResult where
  outcome : RunOutcome
  childRunning : Bool
deriving DecidableEq, Repr

/-- Embedding of CPython's `subprocess.run` with a `timeout`: on normal
completion the child has exited; on timeout `run` kills the child and waits
for it before re-raising `TimeoutExpired`, so in every case the child is no
longer running when the call returns.  The command string is what the
handler passes; it does not influence the abstracted outcome. -/
def subprocess_run (_cmd : String) (o : RunOutcome) : RunResult :=
  { outcome := o, childRunning := false }

/-- Environment of one `/process` request: the request data plus the
behaviour of every external collaborator the handler touches. -/
structure Env where
  /-- the uploaded file's original name (`file.filename`) -/
  origFilename : String
  /-- the `preset` form field -/
  preset : String
  /-- the generated `file_id` (`uuid.uuid4()`) -/
  file_id : String
  /-- `some msg` when saving the upload raises an exception whose text is `msg` -/
  uploadRaises : Option String
  /-- whether the input file was nevertheless created before the save raised -/
  inputWrittenOnFail : Bool
  /-- how the external engine invocation ends -/
  run : RunOutcome
  /-- whether `output_path.exists()` holds after a completed run -/
  outputFileCreated : Bool
  /-- whether `input_path.unlink()` raises in the cleanup step -/
  unlinkRaises : Bool
deriving DecidableEq, Repr

/-- `TEMP_DIR / f"{file_id}_input.mp3"` -/
def inputPath (e : Env) : String := "/tmp/audio/" ++ e.file_id ++ "_input.mp3"

/-- `TEMP_DIR / f"{file_id}_output.m4a"` -/
def outputPath (e : Env) : String := "/tmp/audio/" ++ e.file_id ++ "_output.m4a"

/-- The characters strictly before the last `.` of the list, or `none` when
no `.` occurs. -/
def beforeLastDot : List Char → Option (List Char)
  | [] => none
  | c :: cs =>
    match beforeLastDot cs with
    | some rest => some (c :: rest)
    | none => if c = '.' then some [] else none

/-- Python `s.rsplit(".", 1)[0]`: everything before the last `.`, or the
whole string when it contains no `.`. -/
def rsplitDotHead (s : String) : String :=
  match beforeLastDot s.data with
  | some pre => String.mk pre
  | none => s

/-- The handler's response: a streamed file (path, media type, download
filename) or a JSON error body `{status: "error", message, error?}`. -/
inductive Response where
  | fileResponse (path media_type filename : String)
  | errorBody (message : String) (error : Option String)
deriving DecidableEq, Repr

/-- The diagnostic detail carried by a response: the `error` key of an error
body, absent from every file response. -/
def Response.errDetail : Response → Option String
  | .fileResponse _ _ _ => none
  | .errorBody _ err => err

/-- Observable result of one request: the response returned plus whether the
input file still exists and whether a child process is still running. -/
structure PostState where
  response : Response
  inputFileExists : Bool
  childRunning : Bool
deriving DecidableEq, Repr

/-- The `try` body of the handler, before the `finally` block: save the
upload, build the command, run the engine, and pick the response.  Returns
the response together with the input-file and child-process state the body
leaves behind; the `except` clauses (TimeoutExpired, generic Exception) are
the `.timeout` and `uploadRaises` branches. -/
def handlerBody (e : Env) : Response × Bool × Bool :=
  match e.uploadRaises with
  | some msg =>
      -- the generic `except Exception` returns {"status": "error", "message": str(e)}
      (.errorBody msg none, e.inputWrittenOnFail, false)
  | none =>
      let cmd := get_ffmpeg_command e.preset (inputPath e) (outputPath e)
      let r := subprocess_run cmd e.run
      match r.outcome with
      | .timeout =>
          (.errorBody "Processing timeout" none, true, r.childRunning)
      | .completed rc stderr =>
          if rc ≠ 0 then
            (.errorBody "Processing failed" (some stderr), true, r.childRunning)
          else if ¬ e.outputFileCreated then
            (.errorBody "Output file not created" none, true, r.childRunning)
          else
            (.fileResponse (outputPath e) "audio/mp4"
              (e.preset ++ "_" ++ rsplitDotHead e.origFilename ++ ".m4a"),
             true, r.childRunning)

/-- The `finally` block: `try: if input_path.exists(): input_path.unlink()
except Exception: log` — a raising unlink is swallowed and leaves the file
in place. -/
def cleanupInput (e : Env) (inputFileExists : Bool) : Bool :=
  if inputFileExists then (if e.unlinkRaises then true else false)
  else false

/-- Embedding of the `/process` handler `process_audio`: run the body, then
unconditionally run the cleanup step, and return the body's response. -/
def process_audio (e : Env) : PostState :=
  let r := handlerBody e
  { response := r.1
    inputFileExists := cleanupInput e r.2.1
    childRunning := r.2.2 }

/-- A request in which everything goes right: clean upload, engine exits 0,
output file present, cleanup succeeds.  Used to instantiate theorems. -/
def envOk : Env :=
  { origFilename := "song.mp3"
    preset := "nightcore"
    file_id := "abc"
    uploadRaises := none
    inputWrittenOnFail := false
    run := .completed 0 ""
    outputFileCreated := true
    unlinkRaises := false }

/-! ## Claims about the command builder -/

/-- Helper: any preset string outside the seven recognized identifiers falls
through the whole comparison chain to the default command. -/
theorem get_ffmpeg_command_of_unrecognized (p input output : String)
    (hp : p ∉ recognizedPresets) :
    get_ffmpeg_command p input output = defaultCmd input output := by
  simp only [recognizedPresets, List.mem_cons, List.not_mem_nil, or_false,
    not_or] at hp
  obtain ⟨h1, h2, h3, h4, h5, h6, h7⟩ := hp
  simp [get_ffmpeg_command, defaultCmd, h1, h2, h3, h4, h5, h6, h7]

/-- C2: for every preset identifier in {lofi, tiktok_lofi, chill_lofi,
reverb, nightcore, 8d_audio, vaporwave} and any input/output paths, the
builder returns an invocation carrying a non-empty filter chain whose stages
are, in order, exactly the row of the spec's section 4.2 table for that
preset; for every string outside that set it returns the pass-through
default re-encode command with no filter chain. -/
theorem build_matches_spec_table (input output : String) :
    (∀ p ∈ recognizedPresets,
        specTableStages p ≠ [] ∧
        get_ffmpeg_command p input output =
          filteredCmd input (String.intercalate "," (specTableStages p)) output) ∧
    (∀ p, p ∉ recognizedPresets →
        get_ffmpeg_command p input output = defaultCmd input output) := by
  constructor
  · intro p hp
    fin_cases hp <;> exact ⟨by decide, rfl⟩
  · intro p hp
    exact get_ffmpeg_command_of_unrecognized p input output hp

/-- Closed instance of C2: the builder's output for `lofi` on concrete paths
is the filtered command for the spec table's lofi row, and `no_such_preset`
gets the default command. -/
theorem build_matches_spec_table_witness :
    ("lofi" ∈ recognizedPresets ∧
      specTableStages "lofi" ≠ [] ∧
      get_ffmpeg_command "lofi" "/tmp/audio/x_input.mp3" "/tmp/audio/x_output.m4a" =
        filteredCmd "/tmp/audio/x_input.mp3"
          (String.intercalate "," (specTableStages "lofi")) "/tmp/audio/x_output.m4a") ∧
    ("no_such_preset" ∉ recognizedPresets ∧
      get_ffmpeg_command "no_such_preset" "/tmp/audio/x_input.mp3" "/tmp/audio/x_output.m4a" =
        defaultCmd "/tmp/audio/x_input.mp3" "/tmp/audio/x_output.m4a") :=
  ⟨⟨by decide,
    (build_matches_spec_table "/tmp/audio/x_input.mp3" "/tmp/audio/x_output.m4a").1
      "lofi" (by decide)⟩,
   ⟨by decide,
    (build_matches_spec_table "/tmp/audio/x_input.mp3" "/tmp/audio/x_output.m4a").2
      "no_such_preset" (by decide)⟩⟩

/-- C7: for every pair of input and output paths, the builder returns
character-for-character identical invocations for `lofi`, `tiktok_lofi` and
`chill_lofi`: the three aliases are fully interchangeable. -/
theorem lofi_aliases_interchangeable (input output : String) :
    get_ffmpeg_command "lofi" input output =
      get_ffmpeg_command "tiktok_lofi" input output ∧
    get_ffmpeg_command "tiktok_lofi" input output =
      get_ffmpeg_command "chill_lofi" input output :=
  ⟨rfl, rfl⟩

/-- C9: for any two preset strings both outside the seven recognized
identifiers and fixed input/output paths, the builder returns identical
invocations — the default command does not depend on the unrecognized
string's value. -/
theorem default_cmd_independent_of_preset (p1 p2 input output : String)
    (hp1 : p1 ∉ recognizedPresets) (hp2 : p2 ∉ recognizedPresets) :
    get_ffmpeg_command p1 input output = get_ffmpeg_command p2 input output := by
  rw [get_ffmpeg_command_of_unrecognized p1 input output hp1,
    get_ffmpeg_command_of_unrecognized p2 input output hp2]

/-- Closed instance of C9 at two concrete unrecognized preset strings. -/
theorem default_cmd_independent_of_preset_witness :
    ("LOFI" ∉ recognizedPresets) ∧ ("definitely-not-a-preset" ∉ recognizedPresets) ∧
    get_ffmpeg_command "LOFI" "in.mp3" "out.m4a" =
      get_ffmpeg_command "definitely-not-a-preset" "in.mp3" "out.m4a" :=
  ⟨by decide, by decide,
    default_cmd_independent_of_preset "LOFI" "definitely-not-a-preset" "in.mp3" "out.m4a"
      (by decide) (by decide)⟩

/-! ## Claims about the request handler -/

/-- C1: whatever terminal outcome a `/process` request reaches — file
response, engine failure, missing output, timeout, or an exception raised
while handling the request — the per-request input file no longer exists
when the handler returns, provided the filesystem delete in the cleanup
step does not itself fail (that case is C10's concern). -/
theorem input_file_removed (e : Env) (h : e.unlinkRaises = false) :
    (process_audio e).inputFileExists = false := by
  simp [process_audio, cleanupInput, h]

/-- Closed instance of C1 on a fully successful request. -/
theorem input_file_removed_witness :
    envOk.unlinkRaises = false ∧ (process_audio envOk).inputFileExists = false :=
  ⟨rfl, input_file_removed envOk rfl⟩

/-- C3: the handler returns a file response exactly when the engine exits
with status zero and the expected output path exists; when the exit status
is zero but the output file is absent, it returns the error body with
message "Output file not created". -/
theorem file_response_iff_engine_success (e : Env) :
    ((∃ path mt fn, (process_audio e).response = .fileResponse path mt fn) ↔
      e.uploadRaises = none ∧
        (∃ stderr, e.run = .completed 0 stderr) ∧ e.outputFileCreated = true) ∧
    (∀ stderr, e.uploadRaises = none → e.run = .completed 0 stderr →
      e.outputFileCreated = false →
      (process_audio e).response = .errorBody "Output file not created" none) := by
  obtain ⟨fn, p, fid, ur, iw, run, oc, ulr⟩ := e
  cases ur with
  | some m => simp [process_audio, handlerBody]
  | none =>
    cases run with
    | timeout => simp [process_audio, handlerBody, subprocess_run]
    | completed rc stderr =>
      rcases eq_or_ne rc 0 with hrc | hrc
      · subst hrc
        cases oc <;> simp [process_audio, handlerBody, subprocess_run]
      · simp [process_audio, handlerBody, subprocess_run, hrc]

/-- Closed instance of C3: with exit status zero and no output file, the
handler reports "Output file not created". -/
theorem file_response_iff_engine_success_witness :
    (process_audio { envOk with outputFileCreated := false }).response =
      .errorBody "Output file not created" none :=
  (file_response_iff_engine_success { envOk with outputFileCreated := false }).2
    "" rfl rfl rfl

/-- C4 as stated fails at the upload-failure kind: the generic exception
branch reports the exception text itself as the message, so two upload
faults that differ only in their detail text yield different error
messages — not a fixed message independent of the fault details. -/
theorem fixed_messages_counterexample :
    (process_audio { envOk with
        uploadRaises := some "No space left on device (detail A)" }).response =
      .errorBody "No space left on device (detail A)" none ∧
    (process_audio { envOk with
        uploadRaises := some "Read interrupted (detail B)" }).response =
      .errorBody "Read interrupted (detail B)" none ∧
    (process_audio { envOk with
        uploadRaises := some "No space left on device (detail A)" }).response ≠
      (process_audio { envOk with
        uploadRaises := some "Read interrupted (detail B)" }).response :=
  ⟨rfl, rfl, by decide⟩

/-- C4 amended: the engine diagnostic text is surfaced, under the `error`
key, exactly in the EngineFailure case (non-zero exit status), whose fixed
message is "Processing failed"; missing output and timeout report the fixed
messages "Output file not created" and "Processing timeout" with no
diagnostic; upload failures and other unexpected faults report the caught
exception text itself as the message (so that message is not fixed). -/
theorem stderr_surfaced_only_for_engine_failure (e : Env) :
    (∀ s, ((process_audio e).response).errDetail = some s →
      e.uploadRaises = none ∧
        ∃ rc stderr, e.run = .completed rc stderr ∧ rc ≠ 0 ∧ s = stderr) ∧
    (∀ rc stderr, e.uploadRaises = none → e.run = .completed rc stderr →
      rc ≠ 0 →
      (process_audio e).response = .errorBody "Processing failed" (some stderr)) ∧
    (e.uploadRaises = none → e.run = .timeout →
      (process_audio e).response = .errorBody "Processing timeout" none) ∧
    (∀ stderr, e.uploadRaises = none → e.run = .completed 0 stderr →
      e.outputFileCreated = false →
      (process_audio e).response = .errorBody "Output file not created" none) ∧
    (∀ m, e.uploadRaises = some m →
      (process_audio e).response = .errorBody m none) := by
  obtain ⟨fn, p, fid, ur, iw, run, oc, ulr⟩ := e
  cases ur with
  | some m => simp [process_audio, handlerBody, Response.errDetail]
  | none =>
    cases run with
    | timeout =>
        simp [process_audio, handlerBody, subprocess_run, Response.errDetail]
    | completed rc stderr =>
      rcases eq_or_ne rc 0 with hrc | hrc
      · subst hrc
        cases oc <;>
          simp [process_audio, handlerBody, subprocess_run, Response.errDetail]
      · simp [process_audio, handlerBody, subprocess_run, Response.errDetail, hrc]

/-- C5: when the 300-second timeout elapses before the engine exits, the
child process has been terminated when the handler returns (CPython's
`subprocess.run` kills and reaps the child before re-raising
`TimeoutExpired`), so no orphaned child survives the request. -/
theorem timeout_terminates_child (e : Env)
    (hu : e.uploadRaises = none) (ht : e.run = .timeout) :
    (process_audio e).childRunning = false := by
  obtain ⟨fn, p, fid, ur, iw, run, oc, ulr⟩ := e
  cases ur <;> cases run <;>
    simp_all [process_audio, handlerBody, subprocess_run]

/-- Closed instance of C5 on a timed-out request. -/
theorem timeout_terminates_child_witness :
    ({ envOk with run := .timeout } : Env).uploadRaises = none ∧
    ({ envOk with run := .timeout } : Env).run = .timeout ∧
    (process_audio { envOk with run := .timeout }).childRunning = false :=
  ⟨rfl, rfl, timeout_terminates_child { envOk with run := .timeout } rfl rfl⟩

/-- C6: when the engine invocation exceeds the timeout, the handler returns
the error body with status "error" and message exactly "Processing timeout". -/
theorem timeout_response (e : Env)
    (hu : e.uploadRaises = none) (ht : e.run = .timeout) :
    (process_audio e).response = .errorBody "Processing timeout" none := by
  obtain ⟨fn, p, fid, ur, iw, run, oc, ulr⟩ := e
  cases ur <;> cases run <;>
    simp_all [process_audio, handlerBody, subprocess_run]

/-- Closed instance of C6 on a timed-out request. -/
theorem timeout_response_witness :
    (process_audio { envOk with run := .timeout }).response =
      .errorBody "Processing timeout" none :=
  timeout_response { envOk with run := .timeout } rfl rfl

/-- C8: on success the handler streams the expected output file with media
type audio/mp4 under the download filename
`{preset}_{original name with its last extension stripped}.m4a`. -/
theorem success_streams_output (e : Env) (stderr : String)
    (hu : e.uploadRaises = none) (hr : e.run = .completed 0 stderr)
    (ho : e.outputFileCreated = true) :
    (process_audio e).response =
      .fileResponse (outputPath e) "audio/mp4"
        (e.preset ++ "_" ++ rsplitDotHead e.origFilename ++ ".m4a") := by
  obtain ⟨fn, p, fid, ur, iw, run, oc, ulr⟩ := e
  cases ur <;> cases run <;>
    simp_all [process_audio, handlerBody, subprocess_run]

/-- Closed instance of C8: preset `nightcore`, uploaded name `song.mp3`,
download filename `nightcore_song.m4a`. -/
theorem success_streams_output_witness :
    (process_audio envOk).response =
      .fileResponse "/tmp/audio/abc_output.m4a" "audio/mp4" "nightcore_song.m4a" :=
  (success_streams_output envOk "" rfl rfl rfl).trans (by decide)

/-- C10: when deleting the input file in the cleanup step raises, the
exception is swallowed and the response already determined for the request
is returned unchanged — a cleanup failure never alters the outcome. -/
theorem cleanup_failure_preserves_response (e : Env) :
    (process_audio e).response =
      (process_audio { e with unlinkRaises := false }).response := by
  obtain ⟨fn, p, fid, ur, iw, run, oc, ulr⟩ := e
  rfl

end LofiApi
